import Mathlib

/-!
Verification development for the webhook-repo GitHub webhook receiver.

The repository ingests GitHub webhook deliveries (push, pull_request),
verifies their HMAC signature, normalizes them into a canonical event
record, stores them in MongoDB with a uniqueness constraint on
request_id, and serves time-ordered reads.

This file gives a shallow embedding of the core code:
  services/github_webhook_service.py  (signature check, normalizers)
  services/event_service.py           (save_event, get_latest_events)
  routes/webhook_routes.py            (ingestion coordinator)
and proves or refutes the frozen claims about it.

Modelling conventions:
  - JSON payloads are modelled as typed records whose fields follow the
    GitHub payload schema; a field that may be absent from the JSON
    document is an Option (Python dict.get with a default).  Type
    confusion (a field present with a non-schema type) is outside the
    model.
  - Python datetime.utcnow() is modelled by an explicit `now` argument.
  - Python raising-and-catching around a block that can only fail in
    datetime.fromisoformat is modelled by matching on the Option result
    of the fromisoformat model.
  - Machine-level side effects (MongoDB, the network) are modelled by
    explicit outcome/state values passed to the embedded functions.
-/

/-- Result of one code point of a decimal digit character. -/
def digitVal (c : Char) : Nat := c.toNat - 48

/-- Models the day-count validation performed by the Python datetime
constructor (leap years included). -/
def daysInMonth (year month : Nat) : Nat :=
  if month = 2 then
    if year % 4 = 0 ∧ (year % 100 ≠ 0 ∨ year % 400 = 0) then 29 else 28
  else if month = 4 ∨ month = 6 ∨ month = 9 ∨ month = 11 then 30
  else 31

/-- Naive or aware Python datetime value as produced by
datetime.fromisoformat and datetime.utcnow.  The timezone offset is in
seconds; none models a naive datetime. -/
structure PyDateTime where
  year : Nat
  month : Nat
  day : Nat
  hour : Nat
  minute : Nat
  second : Nat
  microsecond : Nat
  tzOffsetSeconds : Option Int
deriving DecidableEq

/-- Models CPython _parse_hh_mm_ss_ff (Python 3.10 datetime): accepts
HH, HH:MM, HH:MM:SS, HH:MM:SS.fff and HH:MM:SS.ffffff, with the range
checks the time constructor performs afterwards.  Returns
(hour, minute, second, microsecond). -/
def parseHMS : List Char → Option (Nat × Nat × Nat × Nat)
  | [h1, h2] =>
    if h1.isDigit ∧ h2.isDigit ∧ 10 * digitVal h1 + digitVal h2 ≤ 23 then
      some (10 * digitVal h1 + digitVal h2, 0, 0, 0)
    else none
  | [h1, h2, ':', m1, m2] =>
    if h1.isDigit ∧ h2.isDigit ∧ m1.isDigit ∧ m2.isDigit ∧
        10 * digitVal h1 + digitVal h2 ≤ 23 ∧ 10 * digitVal m1 + digitVal m2 ≤ 59 then
      some (10 * digitVal h1 + digitVal h2, 10 * digitVal m1 + digitVal m2, 0, 0)
    else none
  | [h1, h2, ':', m1, m2, ':', s1, s2] =>
    if h1.isDigit ∧ h2.isDigit ∧ m1.isDigit ∧ m2.isDigit ∧ s1.isDigit ∧ s2.isDigit ∧
        10 * digitVal h1 + digitVal h2 ≤ 23 ∧ 10 * digitVal m1 + digitVal m2 ≤ 59 ∧
        10 * digitVal s1 + digitVal s2 ≤ 59 then
      some (10 * digitVal h1 + digitVal h2, 10 * digitVal m1 + digitVal m2,
            10 * digitVal s1 + digitVal s2, 0)
    else none
  | h1 :: h2 :: ':' :: m1 :: m2 :: ':' :: s1 :: s2 :: '.' :: fs =>
    if h1.isDigit ∧ h2.isDigit ∧ m1.isDigit ∧ m2.isDigit ∧ s1.isDigit ∧ s2.isDigit ∧
        10 * digitVal h1 + digitVal h2 ≤ 23 ∧ 10 * digitVal m1 + digitVal m2 ≤ 59 ∧
        10 * digitVal s1 + digitVal s2 ≤ 59 ∧ fs.all Char.isDigit ∧
        (fs.length = 3 ∨ fs.length = 6) then
      some (10 * digitVal h1 + digitVal h2, 10 * digitVal m1 + digitVal m2,
            10 * digitVal s1 + digitVal s2,
            if fs.length = 3 then 1000 * fs.foldl (fun a c => 10 * a + digitVal c) 0
            else fs.foldl (fun a c => 10 * a + digitVal c) 0)
    else none
  | _ => none

/-- Models the timezone portion of CPython datetime.fromisoformat for
Python 3.10: a string of shape HH:MM or HH:MM:SS after the sign.  The
result is the offset magnitude in seconds; the timezone constructor
requires a magnitude strictly below 24 hours. -/
def parseOffsetSeconds : List Char → Option Nat
  | [a, b, ':', c, d] =>
    if a.isDigit ∧ b.isDigit ∧ c.isDigit ∧ d.isDigit ∧
        (10 * digitVal a + digitVal b) * 3600 + (10 * digitVal c + digitVal d) * 60 < 86400 then
      some ((10 * digitVal a + digitVal b) * 3600 + (10 * digitVal c + digitVal d) * 60)
    else none
  | [a, b, ':', c, d, ':', e, f] =>
    if a.isDigit ∧ b.isDigit ∧ c.isDigit ∧ d.isDigit ∧ e.isDigit ∧ f.isDigit ∧
        (10 * digitVal a + digitVal b) * 3600 + (10 * digitVal c + digitVal d) * 60 +
          (10 * digitVal e + digitVal f) < 86400 then
      some ((10 * digitVal a + digitVal b) * 3600 + (10 * digitVal c + digitVal d) * 60 +
          (10 * digitVal e + digitVal f))
    else none
  | _ => none

/-- Models CPython datetime.fromisoformat as available in Python 3.10:
exactly the inverse of datetime.isoformat, namely YYYY-MM-DD optionally
followed by a single separator character, a time HH[:MM[:SS[.fff[fff]]]]
and an optional offset sign HH:MM[:SS].  Returns none where the Python
function raises ValueError. -/
def fromisoformat (s : String) : Option PyDateTime :=
  match s.data with
  | y1 :: y2 :: y3 :: y4 :: '-' :: mo1 :: mo2 :: '-' :: d1 :: d2 :: rest =>
    if y1.isDigit ∧ y2.isDigit ∧ y3.isDigit ∧ y4.isDigit ∧
        mo1.isDigit ∧ mo2.isDigit ∧ d1.isDigit ∧ d2.isDigit then
      let year := 1000 * digitVal y1 + 100 * digitVal y2 + 10 * digitVal y3 + digitVal y4
      let month := 10 * digitVal mo1 + digitVal mo2
      let day := 10 * digitVal d1 + digitVal d2
      if 1 ≤ year ∧ 1 ≤ month ∧ month ≤ 12 ∧ 1 ≤ day ∧ day ≤ daysInMonth year month then
        match rest with
        | [] => some ⟨year, month, day, 0, 0, 0, 0, none⟩
        | _sep :: timeChars =>
          match (match timeChars.findIdx? (fun c => c = '-') with
                 | some i => some i
                 | none => timeChars.findIdx? (fun c => c = '+')) with
          | none =>
            match parseHMS timeChars with
            | some (hh, mm, ss, us) => some ⟨year, month, day, hh, mm, ss, us, none⟩
            | none => none
          | some i =>
            match parseHMS (timeChars.take i), parseOffsetSeconds (timeChars.drop (i + 1)) with
            | some (hh, mm, ss, us), some off =>
              some ⟨year, month, day, hh, mm, ss, us,
                    some (if timeChars.getD i ' ' = '-' then -(off : Int) else (off : Int))⟩
            | _, _ => none
      else none
    else none
  | _ => none

/-- Helper for pyReplace: left-to-right non-overlapping replacement of a
non-empty pattern in a character list.  The recursion is on a fuel
counter so that the definition reduces by plain kernel computation; the
wrapper supplies fuel equal to the list length, which bounds the number
of steps because each step consumes at least one character. -/
def pyReplaceGo (pat rep : List Char) : Nat → List Char → List Char
  | _, [] => []
  | 0, l => l
  | fuel + 1, c :: cs =>
    if pat ≠ [] ∧ pat.isPrefixOf (c :: cs) then
      rep ++ pyReplaceGo pat rep fuel ((c :: cs).drop pat.length)
    else
      c :: pyReplaceGo pat rep fuel cs

/-- Models Python str.replace(old, new) for a non-empty pattern:
replaces every non-overlapping occurrence, scanning left to right.
The source only calls it with the patterns "Z" and "refs/heads/". -/
def pyReplace (s pat rep : String) : String :=
  String.mk (pyReplaceGo pat.data rep.data s.data.length s.data)

/-- Models Python str.startswith. -/
def pyStartsWith (s pre : String) : Bool :=
  pre.data.isPrefixOf s.data

/-- Models the Python slice s[:n] on a string (by code points). -/
def pyTake (s : String) (n : Nat) : String :=
  String.mk (s.data.take n)

/-- Commit author object of a push payload (commits[i].author). -/
structure CommitAuthor where
  name : Option String
deriving DecidableEq

/-- Commit entry of a push payload. -/
structure Commit where
  id : Option String
  timestamp : Option String
  author : Option CommitAuthor
deriving DecidableEq

/-- Pusher object of a push payload. -/
structure Pusher where
  name : Option String
deriving DecidableEq

/-- Branch object of a pull_request payload (head or base). -/
structure PRBranch where
  ref : Option String
deriving DecidableEq

/-- User object of a pull_request payload. -/
structure PRUser where
  login : Option String
deriving DecidableEq

/-- Nested pull_request object of a pull_request payload. -/
structure PRData where
  head : Option PRBranch
  base : Option PRBranch
  user : Option PRUser
  number : Option Int
  merged : Option Bool
  merged_at : Option String
  created_at : Option String
deriving DecidableEq

/-- Top-level webhook JSON payload; the union of the fields that the
push and pull_request normalizers read.  A none field models a key
absent from the JSON document. -/
structure Payload where
  ref : Option String
  pusher : Option Pusher
  commits : Option (List Commit)
  action : Option String
  pull_request : Option PRData
deriving DecidableEq

/-- Payload with no keys, the falsy empty dict. -/
def emptyPayload : Payload := ⟨none, none, none, none, none⟩

/-- Normalized event record returned by the parsers and stored by
save_event.  The action field holds the source strings PUSH,
PULL_REQUEST or MERGE. -/
structure Event where
  request_id : String
  author : String
  action : String
  from_branch : Option String
  to_branch : String
  timestamp : PyDateTime
deriving DecidableEq

/-- Models GitHubWebhookService.parse_push_event
(services/github_webhook_service.py lines 54-104).  The now argument
models datetime.utcnow(); a ValueError from datetime.fromisoformat is
caught by the enclosing except block and yields none. -/
def parse_push_event (payload : Payload) (now : PyDateTime) : Option Event :=
  match payload.commits.getD [] with
  | [] => none
  | commit :: _ =>
    let ref := payload.ref.getD ""
    let branch := if pyStartsWith ref "refs/heads/" then pyReplace ref "refs/heads/" "" else ref
    let pusherName := (payload.pusher.getD ⟨none⟩).name.getD ""
    let author := if pusherName = "" then (commit.author.getD ⟨none⟩).name.getD "" else pusherName
    let commit_hash := pyTake (commit.id.getD "") 7
    let timestamp_str := commit.timestamp.getD ""
    if timestamp_str = "" then
      some ⟨commit_hash, author, "PUSH", none, branch, now⟩
    else
      match fromisoformat (pyReplace timestamp_str "Z" "+00:00") with
      | some t => some ⟨commit_hash, author, "PUSH", none, branch, t⟩
      | none => none

/-- Models line 118 of services/github_webhook_service.py:
pr_data = payload.get('pull_request', {}). -/
def pr_of (payload : Payload) : PRData :=
  payload.pull_request.getD ⟨none, none, none, none, none, none, none⟩

/-- Models lines 136-148 of services/github_webhook_service.py: picks
the timestamp string and the event action, MERGE when the PR object is
merged with a truthy merged_at, PULL_REQUEST otherwise. -/
def merge_selection (pr : PRData) : String × String :=
  if pr.merged.getD false ∧ pr.merged_at.getD "" ≠ "" then
    (pr.merged_at.getD "", "MERGE")
  else
    (pr.created_at.getD "", "PULL_REQUEST")

/-- Models GitHubWebhookService.parse_pull_request_event
(services/github_webhook_service.py lines 106-165). -/
def parse_pull_request_event (payload : Payload) (now : PyDateTime) : Option Event :=
  let pr := pr_of payload
  let action := payload.action.getD ""
  if action ∉ (["opened", "closed", "synchronize"] : List String) then none
  else
    let from_branch := (pr.head.getD ⟨none⟩).ref.getD ""
    let to_branch := (pr.base.getD ⟨none⟩).ref.getD ""
    let author := (pr.user.getD ⟨none⟩).login.getD ""
    let pr_id := match pr.number with
      | some n => toString n
      | none => ""
    let sel := merge_selection pr
    if sel.1 = "" then
      some ⟨pr_id, author, sel.2, some from_branch, to_branch, now⟩
    else
      match fromisoformat (pyReplace sel.1 "Z" "+00:00") with
      | some t => some ⟨pr_id, author, sel.2, some from_branch, to_branch, t⟩
      | none => none

/-- Models GitHubWebhookService.parse_webhook_event
(services/github_webhook_service.py lines 167-185). -/
def parse_webhook_event (payload : Payload) (event_type : String) (now : PyDateTime) : Option Event :=
  if event_type = "push" then parse_push_event payload now
  else if event_type = "pull_request" then parse_pull_request_event payload now
  else none

/-- Truncation to a 32-bit word. -/
def w32 (n : Nat) : Nat := n % 4294967296

/-- Right rotation of a 32-bit word. -/
def rotr32 (n x : Nat) : Nat := w32 ((x >>> n) ||| (x <<< (32 - n)))

/-- SHA-256 small sigma 0. -/
def ssig0 (x : Nat) : Nat := rotr32 7 x ^^^ rotr32 18 x ^^^ (x >>> 3)

/-- SHA-256 small sigma 1. -/
def ssig1 (x : Nat) : Nat := rotr32 17 x ^^^ rotr32 19 x ^^^ (x >>> 10)

/-- SHA-256 big sigma 0. -/
def bsig0 (x : Nat) : Nat := rotr32 2 x ^^^ rotr32 13 x ^^^ rotr32 22 x

/-- SHA-256 big sigma 1. -/
def bsig1 (x : Nat) : Nat := rotr32 6 x ^^^ rotr32 11 x ^^^ rotr32 25 x

/-- SHA-256 choice function. -/
def sha2ch (x y z : Nat) : Nat := (x &&& y) ^^^ ((x ^^^ 4294967295) &&& z)

/-- SHA-256 majority function. -/
def sha2maj (x y z : Nat) : Nat := (x &&& y) ^^^ (x &&& z) ^^^ (y &&& z)

/-- SHA-256 round constants (FIPS 180-4): the low 32 bits of the cube
roots of the first 64 primes, scaled by 2 to the 32, in decimal. -/
def sha2K : List Nat :=
  [1116352408, 1899447441, 3049323471, 3921009573, 961987163,
   1508970993, 2453635748, 2870763221, 3624381080, 310598401,
   607225278, 1426881987, 1925078388, 2162078206, 2614888103,
   3248222580, 3835390401, 4022224774, 264347078, 604807628,
   770255983, 1249150122, 1555081692, 1996064986, 2554220882,
   2821834349, 2952996808, 3210313671, 3336571891, 3584528711,
   113926993, 338241895, 666307205, 773529912, 1294757372,
   1396182291, 1695183700, 1986661051, 2177026350, 2456956037,
   2730485921, 2820302411, 3259730800, 3345764771, 3516065817,
   3600352804, 4094571909, 275423344, 430227734, 506948616,
   659060556, 883997877, 958139571, 1322822218, 1537002063,
   1747873779, 1955562222, 2024104815, 2227730452, 2361852424,
   2428436474, 2756734187, 3204031479, 3329325298]

/-- SHA-256 initial hash state (FIPS 180-4): the low 32 bits of the
square roots of the first 8 primes, scaled by 2 to the 32, in decimal. -/
def sha2H0 : List Nat :=
  [1779033703, 3144134277, 1013904242, 2773480762,
   1359893119, 2600822924, 528734635, 1541459225]

/-- Big-endian 32-bit words of a byte list. -/
def bytesToWords : List Nat → List Nat
  | a :: b :: c :: d :: rest => (a * 16777216 + b * 65536 + c * 256 + d) :: bytesToWords rest
  | _ => []

/-- Big-endian bytes of a 32-bit word. -/
def wordBytes (word : Nat) : List Nat :=
  [word / 16777216 % 256, word / 65536 % 256, word / 256 % 256, word % 256]

/-- Message schedule: extends the 16 block words to 64. -/
def msgSchedule (w16 : List Nat) : List Nat :=
  (List.range 48).foldl
    (fun w _ =>
      w ++ [w32 (ssig1 (w.getD (w.length - 2) 0) + w.getD (w.length - 7) 0 +
                 ssig0 (w.getD (w.length - 15) 0) + w.getD (w.length - 16) 0)])
    w16

/-- One SHA-256 compression round on the eight-word working state. -/
def sha256Round (st : List Nat) (k w : Nat) : List Nat :=
  match st with
  | [a, b, c, d, e, f, g, h] =>
    let t1 := w32 (h + bsig1 e + sha2ch e f g + k + w)
    let t2 := w32 (bsig0 a + sha2maj a b c)
    [w32 (t1 + t2), a, b, c, w32 (d + t1), e, f, g]
  | other => other

/-- SHA-256 compression of one 64-byte block into the hash state. -/
def compressBlock (h : List Nat) (block : List Nat) : List Nat :=
  let w := msgSchedule (bytesToWords block)
  let st := (List.zip sha2K w).foldl (fun st kw => sha256Round st kw.1 kw.2) h
  (List.zip h st).map (fun p => w32 (p.1 + p.2))

/-- Splits a byte list into 64-byte chunks. -/
def chunks64 (l : List Nat) : List (List Nat) :=
  if h : l = [] then [] else l.take 64 :: chunks64 (l.drop 64)
termination_by l.length
decreasing_by
  simp only [List.length_drop]
  have hp : 0 < l.length := List.length_pos.mpr h
  omega

/-- Big-endian 8-byte encoding of a message bit length. -/
def lenBytes64 (n : Nat) : List Nat :=
  [n / 72057594037927936 % 256, n / 281474976710656 % 256, n / 1099511627776 % 256,
   n / 4294967296 % 256, n / 16777216 % 256, n / 65536 % 256, n / 256 % 256, n % 256]

/-- SHA-256 of a byte list, as computed by hashlib.sha256. -/
def sha256 (msg : List Nat) : List Nat :=
  let padZeros := (64 + 56 - (msg.length + 1) % 64) % 64
  let padded := msg ++ 128 :: List.replicate padZeros 0 ++ lenBytes64 (msg.length * 8)
  let final := (chunks64 padded).foldl compressBlock sha2H0
  (final.map wordBytes).foldr (fun a b => a ++ b) []

/-- Lowercase hexadecimal digit. -/
def hexDigitChar (n : Nat) : Char :=
  if n < 10 then Char.ofNat (48 + n) else Char.ofNat (87 + n)

/-- Lowercase hexadecimal rendering of a byte list (hexdigest). -/
def hexOfBytes (bs : List Nat) : String :=
  String.mk ((bs.map (fun b => [hexDigitChar (b / 16), hexDigitChar (b % 16)])).foldr
    (fun a b => a ++ b) [])

/-- UTF-8 bytes of a string (Python str.encode). -/
def utf8Bytes (s : String) : List Nat :=
  s.toUTF8.toList.map (fun b => b.toNat)

/-- HMAC-SHA256 keyed hash (RFC 2104 with SHA-256, block size 64), as
computed by hmac.new(key, msg, hashlib.sha256). -/
def hmacSha256 (key msg : List Nat) : List Nat :=
  let k0 := if 64 < key.length then sha256 key else key
  let kp := k0 ++ List.replicate (64 - k0.length) 0
  let inner := sha256 ((kp.map (fun b => b ^^^ 54)) ++ msg)
  sha256 ((kp.map (fun b => b ^^^ 92)) ++ inner)

/-- Models lines 41-46 of services/github_webhook_service.py: the
expected signature string sha256= followed by the lowercase hex HMAC of
the payload under the UTF-8 bytes of the secret. -/
def hmacSha256Hex (secret : String) (payload_body : List Nat) : String :=
  hexOfBytes (hmacSha256 (utf8Bytes secret) payload_body)

/-- Models GitHubWebhookService.verify_signature
(services/github_webhook_service.py lines 18-52).  An empty secret
short-circuits to true; an empty header with a configured secret gives
false; otherwise hmac.compare_digest, a constant-time string equality,
decides the result.  Nothing in the modelled block can raise, so the
except branch returning false is unreachable here. -/
def verify_signature (payload_body : List Nat) (signature_header : String) (secret : String) : Bool :=
  if secret = "" then true
  else if signature_header = "" then false
  else ("sha256=" ++ hmacSha256Hex secret payload_body) == signature_header

/-- Outcome of the MongoDB insert_one call inside save_event: the
insert succeeded, it raised DuplicateKeyError on the unique request_id
index, or it (or get_db) raised any other exception such as a
connectivity or timeout error. -/
inductive InsertOutcome
  | inserted
  | duplicateKey
  | storeError
deriving DecidableEq

/-- Models EventService.save_event (services/event_service.py lines
17-49).  The normalizers always supply a datetime-valued timestamp, so
the isinstance str branch is the identity here.  insert_one success
returns true; the except DuplicateKeyError branch returns false; the
final except Exception branch also returns false. -/
def save_event (event_data : Event) (outcome : InsertOutcome) : Bool :=
  match outcome with
  | .inserted => true
  | .duplicateKey => false
  | .storeError => false

/-- Stored event document as far as the read path inspects it; the
timestamp is an instant on a linear time scale. -/
structure StoredEvent where
  request_id : String
  author : String
  timestamp : Int
deriving DecidableEq

/-- State of the MongoDB collection as seen by get_latest_events:
either the stored documents are reachable, or get_db / the cursor raises
(uninitialized connection, connectivity, timeout). -/
inductive DbState
  | available (events : List StoredEvent)
  | unreachable
deriving DecidableEq

/-- Descending-timestamp order used by the read path: earlier list
position means a later (or equal) timestamp. -/
def tsGE (a b : StoredEvent) : Prop := b.timestamp ≤ a.timestamp

/-- Insertion step of the model of cursor.sort('timestamp', -1). -/
def insertDesc (e : StoredEvent) : List StoredEvent → List StoredEvent
  | [] => [e]
  | x :: xs => if x.timestamp ≤ e.timestamp then e :: x :: xs else x :: insertDesc e xs

/-- Models cursor.sort('timestamp', -1): rearranges the documents into
descending timestamp order.  MongoDB leaves the relative order of equal
timestamps unspecified; insertion sort realizes one admissible order. -/
def sortDesc : List StoredEvent → List StoredEvent
  | [] => []
  | x :: xs => insertDesc x (sortDesc xs)

/-- Models the query built on lines 67-70 of
services/event_service.py: an empty filter without since, and timestamp
strictly greater than since (the $gt operator) when since is given. -/
def sinceFilter (since : Option Int) (e : StoredEvent) : Bool :=
  match since with
  | some s => decide (s < e.timestamp)
  | none => true

/-- Models EventService.get_latest_events (services/event_service.py
lines 51-89).  The find filter is timestamp strictly greater than since
when since is given; sort is by timestamp descending; cursor.limit
follows the pymongo contract: limit 0 applies no limit and a negative
limit returns at most its absolute value.  Any exception (including an
uninitialized database) is caught and yields the empty list.  The
serialization of _id and timestamp to strings inside the result loop is
omitted; the loop keeps the cursor order. -/
def get_latest_events (db : DbState) (limit : Int := 50) (since : Option Int := none) :
    List StoredEvent :=
  match db with
  | .unreachable => []
  | .available events =>
    let filtered := events.filter (sinceFilter since)
    let sorted := sortDesc filtered
    if limit = 0 then sorted else sorted.take limit.natAbs

/-- Models line 34 of routes/api_routes.py:
int(request.args.get('limit', 50)) — the query limit defaults to 50
when the caller does not pass one. -/
def requested_limit (limitParam : Option Int) : Int :=
  limitParam.getD 50

/-- Inbound HTTP request as read by the webhook route: the two headers,
the raw body bytes, and the JSON parse of the body (none models a
get_json exception, some none a JSON null body). -/
structure WebhookRequest where
  eventTypeHeader : Option String
  signatureHeader : Option String
  body : List Nat
  json : Option (Option Payload)
deriving DecidableEq

/-- JSON body of a webhook route response. -/
inductive HttpBody
  | err (error : String)
  | msg (message : String)
  | msgWithId (message : String) (event_id : String)
deriving DecidableEq

/-- Response of the webhook route: body and HTTP status code. -/
structure HttpResponse where
  body : HttpBody
  status : Nat
deriving DecidableEq

/-- Models the webhook route (routes/webhook_routes.py lines 16-79).
The secret comes from app config; now models datetime.utcnow inside the
normalizers; outcome models the MongoDB insert result.  A missing or
empty X-GitHub-Event header is falsy and rejected; signature failure is
401; a get_json exception or a falsy payload is 400; an unsupported or
unparseable event is accepted without storage; after save_event both
return values map to a 200 response.  Nothing else in the modelled flow
raises, so the final except branch returning 500 is unreachable here. -/
def webhook (req : WebhookRequest) (secret : String) (now : PyDateTime)
    (outcome : InsertOutcome) : HttpResponse :=
  let event_type := req.eventTypeHeader.getD ""
  if event_type = "" then ⟨.err "Missing event type", 400⟩
  else if ¬ verify_signature req.body (req.signatureHeader.getD "") secret then
    ⟨.err "Invalid signature", 401⟩
  else
    match req.json with
    | none => ⟨.err "Invalid JSON payload", 400⟩
    | some jsonPayload =>
      match jsonPayload with
      | none => ⟨.err "Empty payload", 400⟩
      | some payload =>
        if payload = emptyPayload then ⟨.err "Empty payload", 400⟩
        else
          match parse_webhook_event payload event_type now with
          | none => ⟨.msg "Event type not processed", 200⟩
          | some event_data =>
            if save_event event_data outcome then
              ⟨.msgWithId "Event processed successfully" event_data.request_id, 200⟩
            else
              ⟨.msgWithId "Event received (may be duplicate)" event_data.request_id, 200⟩

/-- Fixed ingestion instant used by the concrete examples. -/
def now0 : PyDateTime := ⟨2025, 6, 1, 12, 0, 0, 0, none⟩

/-- Parsed value of 2024-02-01T00:00:00Z after Z-replacement. -/
def dtFeb2024 : PyDateTime := ⟨2024, 2, 1, 0, 0, 0, 0, some 0⟩

/-- Concrete normalized event used by the save_event examples. -/
def sampleEvent : Event := ⟨"abc1234", "alice", "PUSH", none, "main", now0⟩

/-- Push payload whose first commit has no timestamp field. -/
def pushNoTs : Payload :=
  ⟨some "refs/heads/main", some ⟨some "alice"⟩, some [⟨some "abcdef1234567", none, none⟩],
   none, none⟩

/-- Push payload whose first commit has a malformed timestamp. -/
def pushBadTs : Payload :=
  ⟨some "refs/heads/main", none, some [⟨some "abc", some "garbage", none⟩], none, none⟩

/-- Push payload whose ref contains the refs/heads/ pattern twice, as a
push to a branch literally named refs/heads/main. -/
def pushNestedRef : Payload :=
  ⟨some "refs/heads/refs/heads/main", none, some [⟨some "abcdef1234567", none, none⟩],
   none, none⟩

/-- Pull request payload of a merged PR with a well-formed merged_at. -/
def prMerged : Payload :=
  ⟨none, none, none, some "closed",
   some ⟨some ⟨some "feature"⟩, some ⟨some "main"⟩, some ⟨some "bob"⟩, none,
         some true, some "2024-02-01T00:00:00Z", none⟩⟩

/-- Pull request payload of a merged PR whose merged_at is malformed. -/
def prBadMergedAt : Payload :=
  ⟨none, none, none, some "closed",
   some ⟨none, none, none, none, some true, some "garbage", none⟩⟩

/-- Pull request payload with an unprocessed action value. -/
def prLabeled : Payload := ⟨none, none, none, some "labeled", none⟩

/-- Pull request payload with the pull_request object absent. -/
def prMissingObject : Payload := ⟨none, none, none, some "opened", none⟩

/-- Pull request payload whose created_at is malformed. -/
def prBadCreatedAt : Payload :=
  ⟨none, none, none, some "opened",
   some ⟨none, none, none, none, none, none, some "garbage"⟩⟩

/-- Two stored documents with distinct timestamps. -/
def storedA : StoredEvent := ⟨"a11", "alice", 10⟩

/-- Second stored document, older than storedA. -/
def storedB : StoredEvent := ⟨"b22", "bob", 5⟩

/-- Concrete webhook delivery that reaches the save step: a push with
one commit, no signature header, and an empty configured secret. -/
def reqPush : WebhookRequest :=
  ⟨some "push", none, [], some (some pushNoTs)⟩

/-- Membership in the insertion step is membership in the inserted
element or the old list. -/
theorem mem_insertDesc {a e : StoredEvent} {l : List StoredEvent} :
    a ∈ insertDesc e l ↔ a = e ∨ a ∈ l := by
  induction l with
  | nil => simp [insertDesc]
  | cons x xs ih =>
    simp only [insertDesc]
    split
    · simp [List.mem_cons]
    · simp only [List.mem_cons, ih]
      tauto

/-- Inserting into a descending-sorted list keeps it sorted. -/
theorem sorted_insertDesc {e : StoredEvent} {l : List StoredEvent}
    (h : List.Sorted tsGE l) : List.Sorted tsGE (insertDesc e l) := by
  induction l with
  | nil => simp [insertDesc, List.Sorted]
  | cons x xs ih =>
    rw [List.sorted_cons] at h
    obtain ⟨h1, h2⟩ := h
    simp only [insertDesc]
    split
    · rename_i hle
      rw [List.sorted_cons]
      refine ⟨?_, ?_⟩
      · intro b hb
        rcases List.mem_cons.mp hb with rfl | hbs
        · exact hle
        · exact le_trans (h1 b hbs) hle
      · rw [List.sorted_cons]
        exact ⟨h1, h2⟩
    · rename_i hgt
      rw [List.sorted_cons]
      refine ⟨?_, ih h2⟩
      intro b hb
      rcases mem_insertDesc.mp hb with rfl | hbs
      · exact le_of_lt (lt_of_not_le hgt)
      · exact h1 b hbs

/-- The sort model is membership-preserving. -/
theorem mem_sortDesc {a : StoredEvent} {l : List StoredEvent} :
    a ∈ sortDesc l ↔ a ∈ l := by
  induction l with
  | nil => simp [sortDesc]
  | cons x xs ih => simp [sortDesc, mem_insertDesc, ih]

/-- The sort model produces a descending-sorted list. -/
theorem sorted_sortDesc (l : List StoredEvent) : List.Sorted tsGE (sortDesc l) := by
  induction l with
  | nil => simp [sortDesc, List.Sorted]
  | cons x xs ih => exact sorted_insertDesc ih

/-- Claim C1, counterexample: a storage failure that is not a
uniqueness violation is reported by save_event as the same false return
as a duplicate, not as a distinct error. -/
theorem C1_counterexample :
    save_event sampleEvent InsertOutcome.storeError = false ∧
    save_event sampleEvent InsertOutcome.duplicateKey = false ∧
    InsertOutcome.storeError ≠ InsertOutcome.duplicateKey :=
  ⟨rfl, rfl, by decide⟩

/-- Claim C1 as amended: save_event returns true exactly on a
successful insert; a duplicate-key violation and any other storage
failure both return the same false, so the return value does not
distinguish them. -/
theorem C1_save_event_false_collapses_failures (e : Event) (o : InsertOutcome) :
    (save_event e o = true ↔ o = InsertOutcome.inserted) ∧
    save_event e InsertOutcome.duplicateKey = save_event e InsertOutcome.storeError := by
  cases o <;> simp [save_event]

/-- Claim C3, counterexample: with an empty secret, verify_signature
returns true for a header that does not equal the expected sha256=
string, so the claimed equivalence fails for the pair
(payload = [], secret = ""). -/
theorem C3_counterexample :
    verify_signature [] "x" "" = true ∧
    "x" ≠ "sha256=" ++ hmacSha256Hex "" [] := by
  refine ⟨rfl, fun h => ?_⟩
  have hl := congrArg String.length h
  rw [String.length_append] at hl
  have h1 : ("x" : String).length = 1 := rfl
  have h7 : ("sha256=" : String).length = 7 := rfl
  rw [h1, h7] at hl
  omega

/-- Claim C3 as amended: for every payload and header and every
non-empty secret, verify_signature is true exactly when the header
equals sha256= followed by the lowercase hex HMAC-SHA256 of the payload
under the secret. -/
theorem C3_verify_signature_iff (payload_body : List Nat) (signature_header secret : String)
    (hs : secret ≠ "") :
    verify_signature payload_body signature_header secret = true ↔
      signature_header = "sha256=" ++ hmacSha256Hex secret payload_body := by
  unfold verify_signature
  rw [if_neg hs]
  by_cases hh : signature_header = ""
  · subst hh
    rw [if_pos rfl]
    constructor
    · intro h
      exact absurd h (by simp)
    · intro h
      have hl := congrArg String.length h
      rw [String.length_append] at hl
      have h0 : ("" : String).length = 0 := rfl
      have h7 : ("sha256=" : String).length = 7 := rfl
      rw [h0, h7] at hl
      omega
  · rw [if_neg hh, beq_iff_eq]
    exact eq_comm

/-- Claim C3 witness: the amended equivalence applied at the concrete
secret k, payload [] and header x. -/
theorem C3_verify_signature_iff_witness :
    ("k" : String) ≠ "" ∧
    (verify_signature [] "x" "k" = true ↔ "x" = "sha256=" ++ hmacSha256Hex "k" []) :=
  ⟨by decide, C3_verify_signature_iff [] "x" "k" (by decide)⟩

/-- Claim C6: a pull_request payload whose top-level action is outside
opened, closed, synchronize is ignored: the normalizer returns none. -/
theorem C6_unprocessed_action_gives_none (payload : Payload) (now : PyDateTime)
    (h : payload.action.getD "" ∉ (["opened", "closed", "synchronize"] : List String)) :
    parse_pull_request_event payload now = none := by
  simp only [parse_pull_request_event]
  rw [if_pos h]

/-- Claim C6 witness: the labeled action is ignored. -/
theorem C6_unprocessed_action_gives_none_witness :
    (prLabeled.action.getD "" ∉ (["opened", "closed", "synchronize"] : List String)) ∧
    parse_pull_request_event prLabeled now0 = none :=
  ⟨by decide, C6_unprocessed_action_gives_none prLabeled now0 (by decide)⟩

/-- Claim C9: when the store is unreachable or uninitialized the read
path returns the empty list instead of an error, which is exactly what
it returns for an empty reachable store, so the two cases are
observationally identical for every limit and since argument. -/
theorem C9_read_failure_returns_empty (limit : Int) (since : Option Int) :
    get_latest_events DbState.unreachable limit since = [] ∧
    get_latest_events (DbState.available []) limit since = [] ∧
    get_latest_events DbState.unreachable limit since =
      get_latest_events (DbState.available []) limit since := by
  refine ⟨rfl, ?_, ?_⟩ <;> simp [get_latest_events, sortDesc]

/-- Claim C2, counterexample: a push payload whose first commit carries
a non-empty timestamp that fails ISO-8601 parsing makes the normalizer
return none, not an event stamped with the current time. -/
theorem C2_counterexample :
    pushBadTs.commits.getD [] = [⟨some "abc", some "garbage", none⟩] ∧
    (⟨some "abc", some "garbage", none⟩ : Commit).timestamp.getD "" ≠ "" ∧
    parse_push_event pushBadTs now0 = none :=
  ⟨rfl, by decide, by decide⟩

/-- Claim C2 as amended: for a push payload with at least one commit,
an absent (or empty) first-commit timestamp yields an event stamped
with the current time, while a non-empty timestamp that fails to parse
makes the normalizer return none. -/
theorem C2_push_timestamp_default (payload : Payload) (now : PyDateTime)
    (c : Commit) (cs : List Commit)
    (hc : payload.commits.getD [] = c :: cs) :
    (c.timestamp.getD "" = "" →
      (parse_push_event payload now).map Event.timestamp = some now) ∧
    (c.timestamp.getD "" ≠ "" →
      fromisoformat (pyReplace (c.timestamp.getD "") "Z" "+00:00") = none →
      parse_push_event payload now = none) := by
  constructor
  · intro h
    simp only [parse_push_event, hc]
    rw [if_pos h]
    simp
  · intro h1 h2
    simp only [parse_push_event, hc]
    rw [if_neg h1, h2]

/-- Claim C2 witness: the amended theorem applied to a push whose
commit has no timestamp (current time used) and to one whose timestamp
is malformed (none returned). -/
theorem C2_push_timestamp_default_witness :
    (parse_push_event pushNoTs now0).map Event.timestamp = some now0 ∧
    parse_push_event pushBadTs now0 = none :=
  ⟨(C2_push_timestamp_default pushNoTs now0 ⟨some "abcdef1234567", none, none⟩ [] rfl).1 rfl,
   (C2_push_timestamp_default pushBadTs now0 ⟨some "abc", some "garbage", none⟩ [] rfl).2
     (by decide) (by decide)⟩

/-- Claim C4, counterexample: for a ref containing the refs/heads/
pattern twice, the code removes every occurrence (str.replace), so
to_branch is main where stripping only the leading prefix would give
refs/heads/main. -/
theorem C4_counterexample :
    pushNestedRef.ref.getD "" = "refs/heads/refs/heads/main" ∧
    (parse_push_event pushNestedRef now0).map Event.to_branch = some "main" ∧
    ("main" : String) ≠ "refs/heads/main" :=
  ⟨rfl, by decide, by decide⟩

/-- Claim C4 as amended: for a push payload with at least one commit
whose timestamp is absent or parses, the normalizer returns an event
with action PUSH, from_branch none, request_id the first seven
characters of the first commit id, and to_branch equal to ref with
every occurrence of refs/heads/ removed when ref starts with
refs/heads/ (not only the leading one), and ref verbatim otherwise. -/
theorem C4_push_shape (payload : Payload) (now : PyDateTime) (c : Commit) (cs : List Commit)
    (hc : payload.commits.getD [] = c :: cs)
    (hts : c.timestamp.getD "" = "" ∨
      (fromisoformat (pyReplace (c.timestamp.getD "") "Z" "+00:00")).isSome) :
    ((parse_push_event payload now).map Event.action = some "PUSH") ∧
    ((parse_push_event payload now).map Event.from_branch = some none) ∧
    ((parse_push_event payload now).map Event.request_id = some (pyTake (c.id.getD "") 7)) ∧
    ((parse_push_event payload now).map Event.to_branch =
      some (if pyStartsWith (payload.ref.getD "") "refs/heads/" then
              pyReplace (payload.ref.getD "") "refs/heads/" ""
            else payload.ref.getD "")) := by
  have hres : ∃ tv : PyDateTime, parse_push_event payload now =
      some ⟨pyTake (c.id.getD "") 7,
            if (payload.pusher.getD ⟨none⟩).name.getD "" = "" then
              (c.author.getD ⟨none⟩).name.getD ""
            else (payload.pusher.getD ⟨none⟩).name.getD "",
            "PUSH", none,
            if pyStartsWith (payload.ref.getD "") "refs/heads/" then
              pyReplace (payload.ref.getD "") "refs/heads/" ""
            else payload.ref.getD "", tv⟩ := by
    by_cases h0 : c.timestamp.getD "" = ""
    · refine ⟨now, ?_⟩
      simp only [parse_push_event, hc]
      rw [if_pos h0]
    · rcases hts with h | h
      · exact absurd h h0
      · obtain ⟨t, ht⟩ := Option.isSome_iff_exists.mp h
        refine ⟨t, ?_⟩
        simp only [parse_push_event, hc]
        rw [if_neg h0, ht]
  obtain ⟨tv, htv⟩ := hres
  rw [htv]
  simp [Option.map]

/-- Claim C4 witness: the amended theorem applied to a concrete push to
refs/heads/main with a 13-character commit id. -/
theorem C4_push_shape_witness :
    ((parse_push_event pushNoTs now0).map Event.action = some "PUSH") ∧
    ((parse_push_event pushNoTs now0).map Event.from_branch = some none) ∧
    ((parse_push_event pushNoTs now0).map Event.request_id =
      some (pyTake ((⟨some "abcdef1234567", none, none⟩ : Commit).id.getD "") 7)) ∧
    ((parse_push_event pushNoTs now0).map Event.to_branch =
      some (if pyStartsWith (pushNoTs.ref.getD "") "refs/heads/" then
              pyReplace (pushNoTs.ref.getD "") "refs/heads/" ""
            else pushNoTs.ref.getD "")) :=
  C4_push_shape pushNoTs now0 ⟨some "abcdef1234567", none, none⟩ [] rfl (Or.inl rfl)

/-- Claim C5, counterexample: a closed pull_request payload with
merged = true and the non-empty but malformed merged_at value garbage
makes the normalizer return none instead of a MERGE event. -/
theorem C5_counterexample :
    prBadMergedAt.action.getD "" ∈ (["opened", "closed", "synchronize"] : List String) ∧
    (pr_of prBadMergedAt).merged.getD false = true ∧
    (pr_of prBadMergedAt).merged_at.getD "" ≠ "" ∧
    parse_pull_request_event prBadMergedAt now0 = none :=
  ⟨by decide, rfl, by decide, by decide⟩

/-- Claim C5 as amended: for a processed pull_request action, a merged
PR with a non-empty merged_at that parses yields action MERGE stamped
with the parsed merged_at; a PR that is not merged (or has an empty
merged_at) yields action PULL_REQUEST stamped with the parsed
created_at, or with the current time when created_at is absent; and
when the selected timestamp string is non-empty but unparseable the
normalizer returns none. -/
theorem C5_merge_classification (payload : Payload) (now : PyDateTime)
    (h : payload.action.getD "" ∈ (["opened", "closed", "synchronize"] : List String)) :
    (∀ t : PyDateTime, (pr_of payload).merged.getD false = true →
      (pr_of payload).merged_at.getD "" ≠ "" →
      fromisoformat (pyReplace ((pr_of payload).merged_at.getD "") "Z" "+00:00") = some t →
      (parse_pull_request_event payload now).map (fun e => (e.action, e.timestamp)) =
        some ("MERGE", t)) ∧
    (¬((pr_of payload).merged.getD false = true ∧ (pr_of payload).merged_at.getD "" ≠ "") →
      ((pr_of payload).created_at.getD "" = "" →
        (parse_pull_request_event payload now).map (fun e => (e.action, e.timestamp)) =
          some ("PULL_REQUEST", now)) ∧
      (∀ t : PyDateTime, (pr_of payload).created_at.getD "" ≠ "" →
        fromisoformat (pyReplace ((pr_of payload).created_at.getD "") "Z" "+00:00") = some t →
        (parse_pull_request_event payload now).map (fun e => (e.action, e.timestamp)) =
          some ("PULL_REQUEST", t))) ∧
    ((merge_selection (pr_of payload)).1 ≠ "" →
      fromisoformat (pyReplace ((merge_selection (pr_of payload)).1) "Z" "+00:00") = none →
      parse_pull_request_event payload now = none) := by
  refine ⟨?_, ?_, ?_⟩
  · intro t hm hma hiso
    have hsel : merge_selection (pr_of payload) = ((pr_of payload).merged_at.getD "", "MERGE") := by
      simp only [merge_selection]
      rw [if_pos ⟨hm, hma⟩]
    simp only [parse_pull_request_event]
    rw [if_neg (not_not_intro h), hsel]
    rw [if_neg hma, hiso]
    simp
  · intro hnm
    have hsel : merge_selection (pr_of payload) =
        ((pr_of payload).created_at.getD "", "PULL_REQUEST") := by
      simp only [merge_selection]
      rw [if_neg hnm]
    constructor
    · intro hce
      simp only [parse_pull_request_event]
      rw [if_neg (not_not_intro h), hsel]
      rw [if_pos hce]
      simp
    · intro t hcne hiso
      simp only [parse_pull_request_event]
      rw [if_neg (not_not_intro h), hsel]
      rw [if_neg hcne, hiso]
      simp
  · intro hne hiso
    simp only [parse_pull_request_event]
    rw [if_neg (not_not_intro h)]
    rw [if_neg hne, hiso]

/-- Claim C5 witness: the amended theorem applied to a merged PR whose
merged_at is 2024-02-01T00:00:00Z. -/
theorem C5_merge_classification_witness :
    prMerged.action.getD "" ∈ (["opened", "closed", "synchronize"] : List String) ∧
    (parse_pull_request_event prMerged now0).map (fun e => (e.action, e.timestamp)) =
      some ("MERGE", dtFeb2024) :=
  ⟨by decide,
   (C5_merge_classification prMerged now0 (by decide)).1 dtFeb2024 rfl (by decide) (by decide)⟩

/-- Claim C10, counterexample: an opened pull_request payload whose
created_at is present but malformed makes the normalizer return none,
so it does not hold that every processed action yields an event. -/
theorem C10_counterexample :
    prBadCreatedAt.action.getD "" ∈ (["opened", "closed", "synchronize"] : List String) ∧
    parse_pull_request_event prBadCreatedAt now0 = none :=
  ⟨by decide, by decide⟩

/-- Claim C10 as amended: for a processed pull_request action the
normalizer returns an event whenever the selected timestamp string
(merged_at or created_at) is empty or parseable; in particular a
payload with the pull_request object entirely absent yields an event
whose request_id, author, from_branch and to_branch all default to the
empty string.  Only a non-empty unparseable timestamp string produces
none. -/
theorem C10_missing_fields_default (payload : Payload) (now : PyDateTime)
    (h : payload.action.getD "" ∈ (["opened", "closed", "synchronize"] : List String)) :
    (payload.pull_request = none →
      parse_pull_request_event payload now = some ⟨"", "", "PULL_REQUEST", some "", "", now⟩) ∧
    ((merge_selection (pr_of payload)).1 = "" ∨
        (fromisoformat (pyReplace ((merge_selection (pr_of payload)).1) "Z" "+00:00")).isSome →
      (parse_pull_request_event payload now).isSome) := by
  constructor
  · intro hpr
    simp only [parse_pull_request_event, pr_of, hpr]
    rw [if_neg (not_not_intro h)]
    simp [merge_selection]
  · intro hts
    simp only [parse_pull_request_event]
    rw [if_neg (not_not_intro h)]
    rcases hts with h0 | h0
    · rw [if_pos h0]
      simp
    · by_cases he : (merge_selection (pr_of payload)).1 = ""
      · rw [if_pos he]
        simp
      · obtain ⟨t, ht⟩ := Option.isSome_iff_exists.mp h0
        rw [if_neg he, ht]
        simp

/-- Claim C10 witness: the amended theorem applied to an opened payload
with no pull_request object: all fields default to empty strings and an
event is produced. -/
theorem C10_missing_fields_default_witness :
    parse_pull_request_event prMissingObject now0 =
      some ⟨"", "", "PULL_REQUEST", some "", "", now0⟩ ∧
    (parse_pull_request_event prMissingObject now0).isSome :=
  ⟨(C10_missing_fields_default prMissingObject now0 (by decide)).1 rfl,
   (C10_missing_fields_default prMissingObject now0 (by decide)).2 (Or.inl rfl)⟩

/-- Claim C7, counterexample: the read path passes the caller-supplied
limit straight to cursor.limit, and a limit of 0 disables limiting in
MongoDB, so query(limit = 0) can return more than 0 events. -/
theorem C7_counterexample :
    get_latest_events (DbState.available [storedA]) 0 none = [storedA] ∧
    ¬((get_latest_events (DbState.available [storedA]) 0 none).length ≤ 0) :=
  ⟨by decide, by decide⟩

/-- Claim C7 as amended: for a non-zero limit the query returns at most
the absolute value of the limit many events (limit 0 disables the
bound); every returned event is a stored event and, when since is
given, has timestamp strictly greater than since; the result is sorted
by timestamp descending; and an unspecified limit defaults to 50. -/
theorem C7_query_contract (db : List StoredEvent) (limit : Int) (since : Option Int) :
    (limit ≠ 0 →
      (get_latest_events (DbState.available db) limit since).length ≤ limit.natAbs) ∧
    (∀ e ∈ get_latest_events (DbState.available db) limit since,
      e ∈ db ∧ ∀ s : Int, since = some s → s < e.timestamp) ∧
    List.Sorted tsGE (get_latest_events (DbState.available db) limit since) ∧
    get_latest_events (DbState.available db) (requested_limit none) since =
      get_latest_events (DbState.available db) 50 since := by
  refine ⟨?_, ?_, ?_, rfl⟩
  · intro hl
    simp only [get_latest_events]
    rw [if_neg hl]
    exact List.length_take_le _ _
  · intro e he
    have hmem : e ∈ sortDesc (db.filter (sinceFilter since)) := by
      simp only [get_latest_events] at he
      by_cases hl : limit = 0
      · rw [if_pos hl] at he
        exact he
      · rw [if_neg hl] at he
        exact List.take_subset _ _ he
    have hd := List.mem_filter.mp (mem_sortDesc.mp hmem)
    refine ⟨hd.1, ?_⟩
    intro s hs
    have hp := hd.2
    rw [hs] at hp
    exact of_decide_eq_true hp
  · simp only [get_latest_events]
    by_cases hl : limit = 0
    · rw [if_pos hl]
      exact sorted_sortDesc _
    · rw [if_neg hl]
      exact (sorted_sortDesc _).sublist (List.take_sublist _ _)

/-- Claim C7 witness: the amended contract applied to a concrete store
of two events with limit 1 and since 0: the bound, the sortedness, and
the since filter all hold at the returned event. -/
theorem C7_query_contract_witness :
    (get_latest_events (DbState.available [storedA, storedB]) 1 (some 0)).length ≤
      (1 : Int).natAbs ∧
    List.Sorted tsGE (get_latest_events (DbState.available [storedA, storedB]) 1 (some 0)) ∧
    storedA ∈ [storedA, storedB] ∧
    (0 : Int) < storedA.timestamp :=
  ⟨(C7_query_contract [storedA, storedB] 1 (some 0)).1 (by decide),
   (C7_query_contract [storedA, storedB] 1 (some 0)).2.2.1,
   ((C7_query_contract [storedA, storedB] 1 (some 0)).2.1 storedA (by decide)).1,
   ((C7_query_contract [storedA, storedB] 1 (some 0)).2.1 storedA (by decide)).2 0 rfl⟩

/-- Claim C8: every delivery that reaches the save step is answered
with a 200 response for each insert outcome: a fresh insert reports
Event processed successfully, and the false return of save_event (a
duplicate, or any other storage failure folded into false) reports
Event received (may be duplicate); a redelivery never surfaces as a
failure status. -/
theorem C8_save_outcomes_are_success (req : WebhookRequest) (secret : String)
    (now : PyDateTime) (p : Payload) (ev : Event)
    (h1 : req.eventTypeHeader.getD "" ≠ "")
    (h2 : verify_signature req.body (req.signatureHeader.getD "") secret = true)
    (h3 : req.json = some (some p))
    (h4 : p ≠ emptyPayload)
    (h5 : parse_webhook_event p (req.eventTypeHeader.getD "") now = some ev) :
    webhook req secret now InsertOutcome.inserted =
      ⟨.msgWithId "Event processed successfully" ev.request_id, 200⟩ ∧
    webhook req secret now InsertOutcome.duplicateKey =
      ⟨.msgWithId "Event received (may be duplicate)" ev.request_id, 200⟩ ∧
    webhook req secret now InsertOutcome.storeError =
      ⟨.msgWithId "Event received (may be duplicate)" ev.request_id, 200⟩ := by
  refine ⟨?_, ?_, ?_⟩ <;>
  · simp only [webhook]
    rw [if_neg h1, h3]
    simp only [h2, not_true, if_neg, if_false]
    rw [if_neg h4, h5]
    simp [save_event]

/-- Claim C8 witness: a concrete push delivery stored first as a new
event and then redelivered as a duplicate; both answers are 200. -/
theorem C8_save_outcomes_are_success_witness :
    webhook reqPush "" now0 InsertOutcome.inserted =
      ⟨.msgWithId "Event processed successfully" "abcdef1", 200⟩ ∧
    webhook reqPush "" now0 InsertOutcome.duplicateKey =
      ⟨.msgWithId "Event received (may be duplicate)" "abcdef1", 200⟩ := by
  have h := C8_save_outcomes_are_success reqPush "" now0 pushNoTs
    ⟨"abcdef1", "alice", "PUSH", none, "main", now0⟩
    (by decide) (by decide) rfl (by decide) (by decide)
  exact ⟨h.1, h.2.1⟩
